import Mathlib

/-!
# Verification of the RustChain stress-test tool (`scripts/stress_test`)

A shallow embedding of `miner_simulator.py` and `harness.py` from the
`rustchain-bounties` repository, with theorems settling the spec claims.

Conventions of the embedding:
* Python floats are modelled as `ℚ`; `time.perf_counter` spans become explicit
  rational durations supplied as parameters.
* Random draws (`random.uniform`, `random.gauss`, `random.choice`,
  `uuid.uuid4`) become explicit parameters of the functions that perform them.
* `hashlib.sha256(...).hexdigest()` is an arbitrary parameter
  `hash : String → String`; where a claim needs a property of the real
  digest we assume only that every digest is 64 characters long.
* Fallible Python code (exceptions such as `ZeroDivisionError`, `NameError`)
  returns `Except String _`.
-/

namespace StressTest

/-! ## `miner_simulator.py` -/

/-- One entry of `MinerSimulator.ARCH_PROFILES`. -/
structure ArchProfile where
  model : String
  family : String
  multiplier : ℚ
deriving DecidableEq

/-- The keys of `ARCH_PROFILES`; `MinerSimulator.__init__` always picks
`arch_key` from this set (`random.choice(list(self.ARCH_PROFILES.keys()))`). -/
inductive ArchKey where
  | g4 | g5 | apple_silicon | modern_x86
deriving DecidableEq

/-- The string form of an `ARCH_PROFILES` key. -/
def ArchKey.str : ArchKey → String
  | .g4 => "g4"
  | .g5 => "g5"
  | .apple_silicon => "apple_silicon"
  | .modern_x86 => "modern_x86"

/-- The `ARCH_PROFILES` dictionary of `MinerSimulator`. -/
def archProfiles : ArchKey → ArchProfile
  | .g4 => ⟨"PowerPC G4 (7447A)", "PowerPC", 5/2⟩
  | .g5 => ⟨"PowerPC G5 (970MP)", "PowerPC", 2⟩
  | .apple_silicon => ⟨"Apple M2 Max", "ARM64", 6/5⟩
  | .modern_x86 => ⟨"AMD Ryzen 9 7950X", "x86_64", 1⟩

/-- Lookup of `ARCH_PROFILES` by an arbitrary string key (a Python dict
lookup, `none` = `KeyError`). Used to state arch/family consistency. -/
def archFamilyOf : String → Option String
  | "g4" => some "PowerPC"
  | "g5" => some "PowerPC"
  | "apple_silicon" => some "ARM64"
  | "modern_x86" => some "x86_64"
  | _ => none

/-- The `entropy` dictionary built inside `generate_entropy_report`. -/
structure Entropy where
  mean_ns : ℚ
  variance_ns : ℚ
  min_ns : ℚ
  max_ns : ℚ
  sample_count : ℕ
  samples_preview : List ℚ
deriving DecidableEq

/-- Python `min(xs)` on a nonempty list (the `[]` branch is dead code: the
simulator always passes 12 samples). -/
def pymin (xs : List ℚ) : ℚ :=
  match xs with
  | [] => 0
  | x :: rest => rest.foldl min x

/-- Python `max(xs)` on a nonempty list (the `[]` branch is dead code). -/
def pymax (xs : List ℚ) : ℚ :=
  match xs with
  | [] => 0
  | x :: rest => rest.foldl max x

/-- `json.dumps(entropy, sort_keys=True)`: keys serialized in sorted order
`max_ns, mean_ns, min_ns, sample_count, samples_preview, variance_ns` with
the default `", "` / `": "` separators.  Numbers are rendered through the
embedding's `toString` on `ℚ`. -/
def canonicalEntropyJson (e : Entropy) : String :=
  "\x7b\"max_ns\": " ++ toString e.max_ns ++
  ", \"mean_ns\": " ++ toString e.mean_ns ++
  ", \"min_ns\": " ++ toString e.min_ns ++
  ", \"sample_count\": " ++ toString e.sample_count ++
  ", \"samples_preview\": [" ++ String.intercalate ", " (e.samples_preview.map toString) ++
  "], \"variance_ns\": " ++ toString e.variance_ns ++ "\x7d"

/-- The dictionary returned by `generate_entropy_report`. -/
structure Report where
  nonce : String
  commitment : String
  derived : Entropy
  entropy_score : ℚ
deriving DecidableEq

/-- The identity state of one `MinerSimulator` (fields set in `__init__`). -/
structure Sim where
  arch_key : ArchKey
  miner_id : String
  wallet : String
  serial : String
  hostname : String
  mac_address : String
deriving DecidableEq

/-- The random draws consumed by one call of `generate_entropy_report`:
`base_time = random.uniform(20000, 30000)`, twelve `random.gauss(0, 500)`
jitters, and `variance_draw = random.uniform(100000, 500000)`. -/
structure EntropyDraws where
  base_time : ℚ
  jitter : Fin 12 → ℚ
  variance_draw : ℚ

/-- `MinerSimulator.generate_entropy_report(nonce)`.

`samples = [base_time + random.gauss(0, 500) for _ in range(12)]`;
`mean_ns` is `sum(samples)/len(samples)`, `variance_ns` is a fresh
`random.uniform(100000, 500000)` draw, `min_ns`/`max_ns` are `min`/`max`
over the samples, `sample_count` is the literal 48, `samples_preview` is
the sample list itself; `commitment = sha256(nonce + wallet +
json.dumps(entropy, sort_keys=True)).hexdigest()` and
`entropy_score = entropy["variance_ns"]`. -/
def generate_entropy_report (hash : String → String) (sim : Sim) (nonce : String)
    (d : EntropyDraws) : Report :=
  let samples : List ℚ := (List.finRange 12).map fun i => d.base_time + d.jitter i
  let entropy : Entropy :=
    { mean_ns := samples.sum / (samples.length : ℚ)
      variance_ns := d.variance_draw
      min_ns := pymin samples
      max_ns := pymax samples
      sample_count := 48
      samples_preview := samples }
  { nonce := nonce
    commitment := hash (nonce ++ sim.wallet ++ canonicalEntropyJson entropy)
    derived := entropy
    entropy_score := entropy.variance_ns }

/-- The `device` sub-dictionary of the attestation payload. -/
structure Device where
  family : String
  arch : String
  model : String
  cpu : String
  cores : ℕ
  memory_gb : ℕ
  serial : String
deriving DecidableEq

/-- The `fingerprint` sub-dictionary: `all_passed` plus the `passed` flag of
each of the four checks. -/
structure Fingerprint where
  all_passed : Bool
  anti_emulation : Bool
  cpu_features : Bool
  io_latency : Bool
  serial_binding : Bool
deriving DecidableEq

/-- The full dictionary built by `build_attestation_payload`.  The top-level
`nonce` key is an `Option` so that `build_malformed_payload`'s
`del payload["nonce"]` can be expressed. -/
structure AttPayload where
  miner : String
  miner_id : String
  nonce : Option String
  report : Report
  device : Device
  fingerprint : Fingerprint
deriving DecidableEq

/-- `MinerSimulator.build_attestation_payload(nonce)`. `cores` and
`memory_gb` are fresh `random.choice` draws, passed in explicitly. -/
def build_attestation_payload (hash : String → String) (sim : Sim) (nonce : String)
    (d : EntropyDraws) (cores memory_gb : ℕ) : AttPayload :=
  let report := generate_entropy_report hash sim nonce d
  { miner := sim.wallet
    miner_id := sim.miner_id
    nonce := some nonce
    report := report
    device :=
      { family := (archProfiles sim.arch_key).family
        arch := sim.arch_key.str
        model := (archProfiles sim.arch_key).model
        cpu := (archProfiles sim.arch_key).model
        cores := cores
        memory_gb := memory_gb
        serial := sim.serial }
    fingerprint :=
      { all_passed := true
        anti_emulation := true
        cpu_features := true
        io_latency := true
        serial_binding := true } }

/-- The four corruption strategies of `build_malformed_payload`;
`random.choice(["missing_nonce", "bad_commitment", "wrong_arch",
"corrupt_json"])` draws one of them uniformly. -/
inductive Corruption where
  | missing_nonce | bad_commitment | wrong_arch | corrupt_json
deriving DecidableEq

/-- What `build_malformed_payload` hands to the harness: either a Python
dict, or (for `corrupt_json`) a raw string posted as the request body. -/
inductive MPayload where
  | parsed (p : AttPayload)
  | raw (s : String)
deriving DecidableEq

/-- `MinerSimulator.build_malformed_payload(nonce)` at a given drawn
corruption strategy.  The `corrupt_json` branch returns the literal string
`{"invalid": json...`, which is not valid JSON. -/
def build_malformed_payload (hash : String → String) (sim : Sim) (nonce : String)
    (d : EntropyDraws) (cores memory_gb : ℕ) (c : Corruption) : MPayload :=
  let payload := build_attestation_payload hash sim nonce d cores memory_gb
  match c with
  | .missing_nonce => .parsed { payload with nonce := none }
  | .bad_commitment =>
      .parsed { payload with report := { payload.report with commitment := "invalid_hash_value" } }
  | .wrong_arch =>
      .parsed { payload with device := { payload.device with arch := "intel-i9-but-really-g4" } }
  | .corrupt_json => .raw "\x7b\"invalid\": json..."

/-! ### Structural invariants of a payload (claim C2)

A well-formed submission satisfies all five; each corruption strategy is
meant to break exactly one. -/

/-- The submitted body is parsable JSON.  The only raw string this module
ever produces is `{"invalid": json...`, which is unparsable, so the raw
constructor is exactly the unparsable case. -/
def invParses : MPayload → Bool
  | .parsed _ => true
  | .raw _ => false

/-- The top-level `nonce` key is present. -/
def invHasNonce : MPayload → Bool
  | .parsed p => p.nonce.isSome
  | .raw _ => true

/-- The embedded commitment is reproducible from the payload's own fields:
`commitment = sha256(report.nonce + miner + json.dumps(report.derived,
sort_keys=True))`. -/
def invCommitment (hash : String → String) : MPayload → Bool
  | .parsed p =>
      p.report.commitment == hash (p.report.nonce ++ p.miner ++ canonicalEntropyJson p.report.derived)
  | .raw _ => true

/-- The declared `device.arch` is a real `ARCH_PROFILES` key whose profile
family matches the declared `device.family`. -/
def invArchConsistent : MPayload → Bool
  | .parsed p => archFamilyOf p.device.arch == some p.device.family
  | .raw _ => true

/-- Every fingerprint check passes and `all_passed` is set. -/
def invFingerprint : MPayload → Bool
  | .parsed p =>
      p.fingerprint.all_passed && p.fingerprint.anti_emulation && p.fingerprint.cpu_features &&
        p.fingerprint.io_latency && p.fingerprint.serial_binding
  | .raw _ => true

/-- The list of all structural invariants, evaluated on a payload. -/
def invariantChecks (hash : String → String) (m : MPayload) : List Bool :=
  [invParses m, invHasNonce m, invCommitment hash m, invArchConsistent m, invFingerprint m]

/-- How many structural invariants the payload violates. -/
def violationCount (hash : String → String) (m : MPayload) : ℕ :=
  (invariantChecks hash m).count false

/-! ## `harness.py` -/

/-- A minimal JSON value, for parsed response bodies (`resp.json()`). -/
inductive JVal where
  | jnull
  | jbool (b : Bool)
  | jnum (q : ℚ)
  | jstr (s : String)
  | jarr (elems : List JVal)
  | jobj (fields : List (String × JVal))

/-- A parsed JSON object (Python dict). -/
def JObj := List (String × JVal)

/-- Python truthiness of a JSON value. -/
def JVal.truthy : JVal → Bool
  | .jnull => false
  | .jbool b => b
  | .jnum q => !(q == 0)
  | .jstr s => !(s == "")
  | .jarr elems => !elems.isEmpty
  | .jobj fields => !fields.isEmpty

/-- `dict.get(k)`: `none` when the key is absent (Python `None`). -/
def dictGet (fields : JObj) (k : String) : Option JVal :=
  (List.find? (fun e => e.1 == k) fields).map (·.2)

/-- Python truthiness of a `dict.get` result (`None` is falsy). -/
def truthyOpt : Option JVal → Bool
  | none => false
  | some v => v.truthy

/-- What the network returns for one attempt of a step: either an HTTP
response (status, parsed body, raw text, round-trip time), or a raised
transport fault (`httpx` timeout / connection error) with the wall time the
failed attempt took. -/
inductive Attempt (β : Type) where
  | response (status : ℕ) (body : β) (text : String) (rtt : ℚ)
  | fault (msg : String) (elapsed : ℚ)

/-- The slice of the session's `stats` dict touched by
`_perform_step_with_retry` for one step name, plus bookkeeping the claims
need: `stepTime` is `stats["steps"][name]`, `retries` is `stats["retries"]`,
`error` is `stats["error"]`, `slept` records each `asyncio.sleep(backoff)`
in order, and `wall` is the physical time the call occupies (request
round-trips, fault time and backoff sleeps) — the part of the session's
`total_time` spent in this call. -/
structure StepStats where
  stepTime : ℚ
  retries : ℕ
  error : Option String
  slept : List ℚ
  wall : ℚ
deriving DecidableEq

/-- The loop body of `_perform_step_with_retry`: `fuel` is the number of
loop iterations left (`max_retries = 5` at the initial call), `i` indexes
the attempts, `backoff` starts at 2 seconds and doubles after every 429.
The per-step elapsed time is accumulated as soon as a response arrives,
before the status is inspected; a raised fault skips the accumulation. -/
def stepAux {β : Type} (att : ℕ → Attempt β) :
    ℕ → ℕ → ℚ → StepStats → Option β × StepStats
  | 0, _, _, st => (none, { st with error := some "Max retries exceeded (429)" })
  | fuel + 1, i, backoff, st =>
    match att i with
    | .fault msg elapsed => (none, { st with error := some msg, wall := st.wall + elapsed })
    | .response status body text rtt =>
      let st' := { st with stepTime := st.stepTime + rtt, wall := st.wall + rtt }
      if status == 200 then (some body, st')
      else if status == 400 || status == 403 then (some body, st')
      else if status == 429 then
        stepAux att fuel (i + 1) (backoff * 2)
          { st' with
            retries := st'.retries + 1
            slept := st'.slept ++ [backoff]
            wall := st'.wall + backoff }
      else
        (none, { st' with error := some ("HTTP " ++ toString status ++ ": " ++ text.take 50) })

/-- `StressHarness._perform_step_with_retry` for one step, as a function of
the network's answers: `max_retries = 5`, `backoff = 2`. -/
def perform_step_with_retry {β : Type} (att : ℕ → Attempt β) (st : StepStats) :
    Option β × StepStats :=
  stepAux att 5 0 2 st

/-- A fresh session's step bookkeeping (`steps` empty, `retries` 0). -/
def initStepStats : StepStats := ⟨0, 0, none, [], 0⟩

/-! ### `run_miner_session`, malformed branch (claim C4) -/

/-- The fields of the session outcome that the malformed path decides. -/
structure MalOutcome where
  success : Bool
  enrollSent : Bool
  notes : Option String
deriving DecidableEq

/-- The control flow of `run_miner_session` with `malformed=True`, as a
function of the parsed results of the challenge and submit steps (`none` =
the step returned `None`).  Mirrors `if not nonce_data: return stats` (an
empty dict is falsy) and `if res and not res.get("ok"): stats["success"] =
True ... return stats`; the enroll request is never sent on this path. -/
def runMalformedSession (challengeRes submitRes : Option JObj) : MalOutcome :=
  match challengeRes with
  | none => ⟨false, false, none⟩
  | some nonceData =>
    if List.isEmpty nonceData then ⟨false, false, none⟩
    else
      match submitRes with
      | none => ⟨false, false, none⟩
      | some res =>
        if !(List.isEmpty res) && !(truthyOpt (dictGet res "ok")) then
          ⟨true, false, some "Correctly rejected malformed payload"⟩
        else ⟨false, false, none⟩

/-- The `malformed_flags` array built by `run_test` when `test_malformed`
is set: all `False`, then `for i in range(0, num_miners, 5):
malformed_flags[i] = True`. -/
def malformedFlags (numMiners : ℕ) : List Bool :=
  (List.range numMiners).map fun i => i % 5 == 0

/-! ### `run_test`, duplicate-identity setup (claim C1) -/

/-- The names bound in the module namespace of `harness.py` by its import
and definition statements (`import asyncio`, `import time`, `import httpx`,
`import statistics`, `from typing import List, Dict, Any`,
`from .miner_simulator import MinerSimulator`, `class StressHarness`).
`uuid` is not among them. -/
def harnessModuleGlobals : List String :=
  ["asyncio", "time", "httpx", "statistics", "List", "Dict", "Any",
   "MinerSimulator", "StressHarness"]

/-- Python `int()` on a float: truncation toward zero. -/
def pyInt (q : ℚ) : ℤ :=
  if 0 ≤ q then ⌊q⌋ else ⌈q⌉

/-- The `force_ids` array built by `run_test`, with the dynamic global-name
lookup of Python made explicit: evaluating
`base_id = f"duplicate-miner-{uuid.uuid4().hex[:4]}"` first looks `uuid` up
in the module globals and raises `NameError` when it is absent.
`num_dupes = int(num_miners * duplicate_ratio)`; sessions `0 .. num_dupes-1`
get the shared forced id. -/
def setupForceIds (globals : List String) (numMiners : ℕ) (dupFrac : ℚ)
    (freshHex : String) : Except String (List (Option String)) :=
  if 0 < dupFrac then
    if globals.contains "uuid" then
      let numDupes := (pyInt ((numMiners : ℚ) * dupFrac)).toNat
      let baseId := "duplicate-miner-" ++ freshHex
      .ok ((List.range numMiners).map fun i => if i < numDupes then some baseId else none)
    else .error "NameError: name uuid is not defined"
  else .ok (List.replicate numMiners none)

/-- `run_miner_session` overrides the simulator's identity with the forced
one before any request: `if force_duplicate_id: simulator.miner_id =
force_duplicate_id`. -/
def effectiveMinerId (ownId : String) (forced : Option String) : String :=
  forced.getD ownId

/-! ### `print_summary` (claims C6, C8) -/

/-- Python's stable in-place sort on a float list. -/
def pysort (xs : List ℚ) : List ℚ :=
  xs.insertionSort (· ≤ ·)

/-- `statistics.median`: sort, middle element for odd length, mean of the
two middles for even length (`print_summary` only calls it on a nonempty
list; `median([])` would raise `StatisticsError`). -/
def pymedian (xs : List ℚ) : ℚ :=
  let s := pysort xs
  let n := xs.length
  if n % 2 == 1 then s.getD (n / 2) 0
  else (s.getD (n / 2 - 1) 0 + s.getD (n / 2) 0) / 2

/-- The list index used for the pN latency figure:
`int(len(total_times) * 0.95)` resp. `* 0.99`. -/
def percentileIndex (n : ℕ) (pct : ℚ) : ℕ :=
  (pyInt ((n : ℚ) * pct)).toNat

/-- The latency block of `print_summary`: `none` when there are no total
times; otherwise the p50 (median) figure, and — only when more than one
time was recorded — the p95/p99 figures read off the sorted list at the
truncated indices. -/
def latencySummary (times : List ℚ) : Option (ℚ × Option (ℚ × ℚ)) :=
  if List.isEmpty times then none
  else
    let s := pysort times
    some (pymedian times,
      if 1 < times.length then
        some (s.getD (percentileIndex times.length (95 / 100)) 0,
              s.getD (percentileIndex times.length (99 / 100)) 0)
      else none)

/-- Python float division, which raises `ZeroDivisionError` on a zero
denominator. -/
def pydiv (a b : ℚ) : Except String ℚ :=
  if b == 0 then .error "ZeroDivisionError: float division by zero"
  else .ok (a / b)

/-- The first two computed figures of `print_summary`, in evaluation order:
the success rate `len(successes)/total_miners*100` and the throughput
`len(successes)/duration`.  Either division raises `ZeroDivisionError` when
its denominator is zero. -/
def summaryRates (numSuccesses totalMiners : ℕ) (duration : ℚ) :
    Except String (ℚ × ℚ) :=
  match pydiv (numSuccesses : ℚ) (totalMiners : ℚ) with
  | .error e => .error e
  | .ok rate =>
    match pydiv (numSuccesses : ℚ) duration with
    | .error e => .error e
    | .ok throughput => .ok (rate * 100, throughput)

/-- The round-trip (wall) time an attempt takes, whether it yields a
response or raises a fault. -/
def Attempt.rtt {β : Type} : Attempt β → ℚ
  | .response _ _ _ r => r
  | .fault _ e => e

/-- Whether an attempt is answered with HTTP 429. -/
def Attempt.is429 {β : Type} : Attempt β → Bool
  | .response status _ _ _ => status == 429
  | .fault _ _ => false

/-! ### The concurrency gate of `run_test` (claim C9)

`StressHarness.__init__` creates `asyncio.Semaphore(concurrency)` and
`run_miner_session` wraps its whole request sequence in
`async with self.semaphore`.  The cooperative scheduling of the event loop
is modelled as an interleaving transition system: a session is `pending`
until it acquires a permit, `holding b` while inside the `async with`
block (`b` = whether a network request is currently in flight), and
`finished` once the block is exited and the permit released. -/

/-- The lifecycle phase of one session relative to the semaphore. -/
inductive Phase where
  | pending
  | holding (inFlight : Bool)
  | finished
deriving DecidableEq

/-- A session holds a permit. -/
def isHolding : Phase → Bool
  | .holding _ => true
  | _ => false

/-- A session has a network request in flight. -/
def isInFlight : Phase → Bool
  | .holding b => b
  | _ => false

/-- Global state: free permits of the semaphore plus each session's phase. -/
structure GateState where
  permits : ℕ
  sessions : List Phase
deriving DecidableEq

/-- Before any session runs: `asyncio.Semaphore(C)` full, all `n` sessions
pending. -/
def initGateState (C n : ℕ) : GateState :=
  ⟨C, List.replicate n .pending⟩

/-- One scheduler step.  `acquire` needs a free permit (`Semaphore`
blocks otherwise); a request can begin only from `holding false`, i.e.
inside the `async with` block; `release` returns the permit on block
exit. -/
inductive GateStep : GateState → GateState → Prop where
  | acquire (s : GateState) (i : ℕ) (hi : i < s.sessions.length)
      (hp : s.sessions[i] = Phase.pending) (hperm : 0 < s.permits) :
      GateStep s ⟨s.permits - 1, s.sessions.set i (Phase.holding false)⟩
  | beginRequest (s : GateState) (i : ℕ) (hi : i < s.sessions.length)
      (hp : s.sessions[i] = Phase.holding false) :
      GateStep s ⟨s.permits, s.sessions.set i (Phase.holding true)⟩
  | endRequest (s : GateState) (i : ℕ) (hi : i < s.sessions.length)
      (hp : s.sessions[i] = Phase.holding true) :
      GateStep s ⟨s.permits, s.sessions.set i (Phase.holding false)⟩
  | release (s : GateState) (i : ℕ) (hi : i < s.sessions.length)
      (hp : s.sessions[i] = Phase.holding false) :
      GateStep s ⟨s.permits + 1, s.sessions.set i Phase.finished⟩

/-- The states a run with gate capacity `C` and `n` sessions can reach. -/
def ReachableGate (C n : ℕ) (s : GateState) : Prop :=
  Relation.ReflTransGen GateStep (initGateState C n) s

/-- How many sessions currently hold a permit. -/
def holdingCount (s : GateState) : ℕ :=
  s.sessions.countP isHolding

/-- How many sessions currently have a request in flight. -/
def inFlightCount (s : GateState) : ℕ :=
  s.sessions.countP isInFlight

/-! ### Concrete inputs used by the witnesses -/

/-- A concrete simulator identity (a `g4` profile). -/
def sampleSim : Sim :=
  ⟨.g4, "sim-g4-00000000", "wallet00RTC", "SN-000000000000", "host-sim-g4-00000000",
   "00:00:00:00:00:00"⟩

/-- Concrete entropy draws: base 20000, zero jitter, variance draw 100000. -/
def drawsA : EntropyDraws := ⟨20000, fun _ => 0, 100000⟩

/-- The same timing draws as `drawsA` but variance draw 200000. -/
def drawsB : EntropyDraws := ⟨20000, fun _ => 0, 200000⟩

/-- A stand-in digest function whose outputs, like real
`sha256(...).hexdigest()` values, are 64 characters long. -/
def constDigest : String → String :=
  fun _ => "aaaaaaaaaaaaaaaaaaaaaaaaaaaaaaaaaaaaaaaaaaaaaaaaaaaaaaaaaaaaaaaa"

/-! ## Theorems for the claims -/

/-- C1: `run_test` with a positive duplicate ratio is meant to force the
first `floor(N·r)` sessions to share one freshly generated identity, but
`harness.py` never imports `uuid`, so evaluating
`base_id = f"duplicate-miner-{uuid.uuid4().hex[:4]}"` raises `NameError`
before any session launches; with `uuid` bound the same setup would indeed
force exactly the sessions at launch indices `0 .. floor(N·r) - 1`. -/
theorem C1_duplicate_setup_name_error :
    setupForceIds harnessModuleGlobals 10 (3 / 10) "ab12"
      = Except.error "NameError: name uuid is not defined"
    ∧ setupForceIds (harnessModuleGlobals ++ ["uuid"]) 10 (3 / 10) "ab12"
      = Except.ok [some "duplicate-miner-ab12", some "duplicate-miner-ab12",
          some "duplicate-miner-ab12", none, none, none, none, none, none, none] := by
  have h1 : (0 : ℚ) < 3 / 10 := by norm_num
  constructor
  · have h2 : "uuid" ∉ harnessModuleGlobals := by decide
    simp [setupForceIds, h1, h2]
  · have h3 : (harnessModuleGlobals ++ ["uuid"]).contains "uuid" = true := by decide
    have h4 : pyInt ((10 : ℚ) * (3 / 10)) = 3 := by norm_num [pyInt]
    simp [setupForceIds, h1, h3, h4]
    decide

/-- C8: for a run with zero sessions, `print_summary`'s success-rate
division `len(successes)/total_miners` raises `ZeroDivisionError`, and for
a zero-duration run the throughput division `len(successes)/duration`
does — the aggregate summary does not complete with a defined result. -/
theorem C8_summary_zero_division :
    summaryRates 0 0 5 = Except.error "ZeroDivisionError: float division by zero"
    ∧ summaryRates 3 5 0 = Except.error "ZeroDivisionError: float division by zero" :=
  ⟨rfl, rfl⟩

/-- C5 counterexample: two calls of `generate_entropy_report` that draw the
same base latency and jitters (hence byte-identical 12-value sample sets,
here twelve samples all equal to 20000) but different
`random.uniform(100000, 500000)` values report different `variance_ns`
(100000 vs 200000), so the report's variance is not computed over its
sample set as the claim states. -/
theorem C5_counterexample_variance :
    (generate_entropy_report constDigest sampleSim "n0" drawsA).derived.samples_preview
      = (generate_entropy_report constDigest sampleSim "n0" drawsB).derived.samples_preview
    ∧ (generate_entropy_report constDigest sampleSim "n0" drawsA).derived.variance_ns = 100000
    ∧ (generate_entropy_report constDigest sampleSim "n0" drawsB).derived.variance_ns = 200000 :=
  ⟨rfl, rfl, rfl⟩

/-- C5 (amended): every entropy report's mean, min and max are computed
over its fixed 12-value sample set (base latency plus per-sample gaussian
jitter); its `variance_ns` is the independent `random.uniform(100000,
500000)` draw, not a function of the samples; its declared `sample_count`
is 48; and its `entropy_score` equals the report's variance field. -/
theorem C5_report_fields (hash : String → String) (sim : Sim) (nonce : String)
    (d : EntropyDraws) :
    (generate_entropy_report hash sim nonce d).derived.samples_preview
      = (List.finRange 12).map (fun i => d.base_time + d.jitter i)
    ∧ ((generate_entropy_report hash sim nonce d).derived.samples_preview).length = 12
    ∧ (generate_entropy_report hash sim nonce d).derived.mean_ns
      = ((List.finRange 12).map fun i => d.base_time + d.jitter i).sum / 12
    ∧ (generate_entropy_report hash sim nonce d).derived.min_ns
      = pymin ((List.finRange 12).map fun i => d.base_time + d.jitter i)
    ∧ (generate_entropy_report hash sim nonce d).derived.max_ns
      = pymax ((List.finRange 12).map fun i => d.base_time + d.jitter i)
    ∧ (generate_entropy_report hash sim nonce d).derived.sample_count = 48
    ∧ (generate_entropy_report hash sim nonce d).derived.variance_ns = d.variance_draw
    ∧ (generate_entropy_report hash sim nonce d).entropy_score
      = (generate_entropy_report hash sim nonce d).derived.variance_ns := by
  refine ⟨rfl, by simp [generate_entropy_report], ?_, rfl, rfl, rfl, rfl, rfl⟩
  simp [generate_entropy_report]

/-- C6: the latency summary reports p50 as the median of the sessions'
total elapsed times, and pN (N ∈ {95, 99}) as the element of the sorted
total-time list at the truncated index `int(count * N/100)` with no
interpolation; in particular for total times [1, 2, 3, 4, 5] it reports
p50 = 3, p95 = 5 and p99 = 5 (both indices truncate to 4). -/
theorem C6_percentiles :
    (∀ times : List ℚ, 1 < times.length →
      latencySummary times
        = some (pymedian times,
            some ((pysort times).getD (percentileIndex times.length (95 / 100)) 0,
                  (pysort times).getD (percentileIndex times.length (99 / 100)) 0)))
    ∧ latencySummary [1, 2, 3, 4, 5] = some (3, some (5, 5))
    ∧ percentileIndex 5 (95 / 100) = 4 ∧ percentileIndex 5 (99 / 100) = 4 := by
  have h95 : percentileIndex 5 (95 / 100) = 4 := by
    norm_num [percentileIndex, pyInt]
    rfl
  have h99 : percentileIndex 5 (99 / 100) = 4 := by
    norm_num [percentileIndex, pyInt]
    rfl
  refine ⟨?_, ?_, h95, h99⟩
  · intro times h
    cases times with
    | nil => simp at h
    | cons a l =>
      have hl : l ≠ [] := by
        intro e
        subst e
        simp at h
      simp [latencySummary, h, hl]
  · have hlen : ([1, 2, 3, 4, 5] : List ℚ).length = 5 := rfl
    simp only [latencySummary, hlen, h95, h99]
    decide

/-- Witness for C6: the general percentile formula applied to the concrete
total-time list `[1, 2, 3, 4, 5]`. -/
theorem C6_percentiles_witness :
    latencySummary [1, 2, 3, 4, 5]
      = some (pymedian [1, 2, 3, 4, 5],
          some ((pysort [1, 2, 3, 4, 5]).getD
                  (percentileIndex ([1, 2, 3, 4, 5] : List ℚ).length (95 / 100)) 0,
                (pysort [1, 2, 3, 4, 5]).getD
                  (percentileIndex ([1, 2, 3, 4, 5] : List ℚ).length (99 / 100)) 0)) :=
  C6_percentiles.1 [1, 2, 3, 4, 5] (by decide)

/-- C2: every well-formed attestation payload satisfies all five structural
invariants (parsable body, top-level nonce present, commitment reproducible
from the payload's own fields, device arch consistent with the declared
family, every fingerprint check passed), and each corruption strategy of
`build_malformed_payload` — drawn uniformly by `random.choice` among
dropping the nonce, replacing the commitment with a fixed invalid string,
setting a device arch inconsistent with the declared family, and returning
an unparsable raw encoding — violates exactly one of them, never zero and
never more than one.  The only assumption on the digest function is that
its outputs are 64 characters long, as `sha256().hexdigest()` values
are. -/
theorem C2_invariants (hash : String → String) (hlen : ∀ s, (hash s).length = 64)
    (sim : Sim) (nonce : String) (d : EntropyDraws) (cores memory_gb : ℕ)
    (c : Corruption) :
    violationCount hash
        (.parsed (build_attestation_payload hash sim nonce d cores memory_gb)) = 0
    ∧ violationCount hash (build_malformed_payload hash sim nonce d cores memory_gb c) = 1 := by
  have harch : (archFamilyOf sim.arch_key.str == some (archProfiles sim.arch_key).family)
      = true := by
    cases sim.arch_key <;> rfl
  constructor
  · have hwf : invariantChecks hash
        (.parsed (build_attestation_payload hash sim nonce d cores memory_gb))
          = [true, true, true, true, true] := by
      simp [invariantChecks, invParses, invHasNonce, invCommitment, invArchConsistent,
        invFingerprint, build_attestation_payload, generate_entropy_report, harch]
    rw [violationCount, hwf]
    rfl
  · cases c with
    | missing_nonce =>
      have hc : invariantChecks hash
          (build_malformed_payload hash sim nonce d cores memory_gb .missing_nonce)
            = [true, false, true, true, true] := by
        simp [invariantChecks, invParses, invHasNonce, invCommitment, invArchConsistent,
          invFingerprint, build_malformed_payload, build_attestation_payload,
          generate_entropy_report, harch]
      rw [violationCount, hc]
      rfl
    | bad_commitment =>
      have hbad : (("invalid_hash_value" : String)
          == hash ((generate_entropy_report hash sim nonce d).nonce ++ sim.wallet
              ++ canonicalEntropyJson (generate_entropy_report hash sim nonce d).derived))
            = false := by
        apply beq_eq_false_iff_ne.mpr
        intro e
        have h64 := hlen ((generate_entropy_report hash sim nonce d).nonce ++ sim.wallet
            ++ canonicalEntropyJson (generate_entropy_report hash sim nonce d).derived)
        rw [← e] at h64
        exact absurd h64 (by decide)
      have hc : invariantChecks hash
          (build_malformed_payload hash sim nonce d cores memory_gb .bad_commitment)
            = [true, true, false, true, true] := by
        simp [invariantChecks, invParses, invHasNonce, invCommitment, invArchConsistent,
          invFingerprint, build_malformed_payload, build_attestation_payload, harch]
        simpa [generate_entropy_report] using hbad
      rw [violationCount, hc]
      rfl
    | wrong_arch =>
      have hc : invariantChecks hash
          (build_malformed_payload hash sim nonce d cores memory_gb .wrong_arch)
            = [true, true, true, false, true] := by
        simp [invariantChecks, invParses, invHasNonce, invCommitment, invArchConsistent,
          invFingerprint, build_malformed_payload, build_attestation_payload,
          generate_entropy_report, archFamilyOf]
      rw [violationCount, hc]
      rfl
    | corrupt_json =>
      have hc : invariantChecks hash
          (build_malformed_payload hash sim nonce d cores memory_gb .corrupt_json)
            = [false, true, true, true, true] := by
        simp [invariantChecks, invParses, invHasNonce, invCommitment, invArchConsistent,
          invFingerprint, build_malformed_payload, build_attestation_payload]
      rw [violationCount, hc]
      rfl

/-- Witness for C2: the invariant counts evaluated with a concrete
64-character digest stand-in, a concrete simulator, nonce, entropy draws,
and the `bad_commitment` corruption. -/
theorem C2_invariants_witness :
    violationCount constDigest
        (.parsed (build_attestation_payload constDigest sampleSim "nonce-1" drawsA 4 8)) = 0
    ∧ violationCount constDigest
        (build_malformed_payload constDigest sampleSim "nonce-1" drawsA 4 8 .bad_commitment)
          = 1 :=
  C2_invariants constDigest (fun _ => rfl) sampleSim "nonce-1" drawsA 4 8 .bad_commitment

/-! ### Characterization of `_perform_step_with_retry` runs -/

/-- After `k < 5` consecutive 429 answers and then a 200, the step returns
the parsed 200 body; the final stats accumulate every attempt's round-trip
time, `k` retry increments, and the doubling backoff sleeps `2, 4, …`. -/
theorem stepRun200 {β : Type} (att : ℕ → Attempt β) (k : ℕ) (b : ℕ → β)
    (tx : ℕ → String) (rt : ℕ → ℚ) (body : β) (text : String) (rtt : ℚ)
    (hk : k < 5)
    (h429 : ∀ j, j < k → att j = .response 429 (b j) (tx j) (rt j))
    (h200 : att k = .response 200 body text rtt) :
    perform_step_with_retry att initStepStats
      = (some body,
         { stepTime := ((List.range k).map rt).sum + rtt
           retries := k
           error := none
           slept := (List.range k).map fun j => 2 * 2 ^ j
           wall := ((List.range k).map rt).sum + rtt
                     + (((List.range k).map fun j => (2 : ℚ) * 2 ^ j).sum) }) := by
  interval_cases k
  · norm_num [perform_step_with_retry, stepAux, initStepStats, h200]
  · have h0 := h429 0 (by norm_num)
    norm_num [perform_step_with_retry, stepAux, initStepStats, h0, h200, List.range_succ] <;> (try constructor) <;> ring
  · have h0 := h429 0 (by norm_num)
    have h1 := h429 1 (by norm_num)
    norm_num [perform_step_with_retry, stepAux, initStepStats, h0, h1, h200,
      List.range_succ] <;> (try constructor) <;> ring
  · have h0 := h429 0 (by norm_num)
    have h1 := h429 1 (by norm_num)
    have h2 := h429 2 (by norm_num)
    norm_num [perform_step_with_retry, stepAux, initStepStats, h0, h1, h2, h200,
      List.range_succ] <;> (try constructor) <;> ring
  · have h0 := h429 0 (by norm_num)
    have h1 := h429 1 (by norm_num)
    have h2 := h429 2 (by norm_num)
    have h3 := h429 3 (by norm_num)
    norm_num [perform_step_with_retry, stepAux, initStepStats, h0, h1, h2, h3, h200,
      List.range_succ] <;> (try constructor) <;> ring

/-- After `k < 5` consecutive 429 answers, an attempt that raises a
transport fault ends the step at once: the fault's message is recorded, the
fault attempt contributes nothing to the accumulated step time, and its
wall time still elapses. -/
theorem stepRunFault {β : Type} (att : ℕ → Attempt β) (k : ℕ) (b : ℕ → β)
    (tx : ℕ → String) (rt : ℕ → ℚ) (msg : String) (elapsed : ℚ) (hk : k < 5)
    (h429 : ∀ j, j < k → att j = .response 429 (b j) (tx j) (rt j))
    (hfault : att k = .fault msg elapsed) :
    perform_step_with_retry att initStepStats
      = (none,
         { stepTime := ((List.range k).map rt).sum
           retries := k
           error := some msg
           slept := (List.range k).map fun j => 2 * 2 ^ j
           wall := ((List.range k).map rt).sum + elapsed
                     + (((List.range k).map fun j => (2 : ℚ) * 2 ^ j).sum) }) := by
  interval_cases k
  · norm_num [perform_step_with_retry, stepAux, initStepStats, hfault]
  · have h0 := h429 0 (by norm_num)
    norm_num [perform_step_with_retry, stepAux, initStepStats, h0, hfault,
      List.range_succ] <;> (try constructor) <;> ring
  · have h0 := h429 0 (by norm_num)
    have h1 := h429 1 (by norm_num)
    norm_num [perform_step_with_retry, stepAux, initStepStats, h0, h1, hfault,
      List.range_succ] <;> (try constructor) <;> ring
  · have h0 := h429 0 (by norm_num)
    have h1 := h429 1 (by norm_num)
    have h2 := h429 2 (by norm_num)
    norm_num [perform_step_with_retry, stepAux, initStepStats, h0, h1, h2, hfault,
      List.range_succ] <;> (try constructor) <;> ring
  · have h0 := h429 0 (by norm_num)
    have h1 := h429 1 (by norm_num)
    have h2 := h429 2 (by norm_num)
    have h3 := h429 3 (by norm_num)
    norm_num [perform_step_with_retry, stepAux, initStepStats, h0, h1, h2, h3, hfault,
      List.range_succ] <;> (try constructor) <;> ring

/-- Five consecutive 429 answers exhaust `max_retries`: the step fails with
the distinct retry-exhaustion error. -/
theorem stepRunExhausted {β : Type} (att : ℕ → Attempt β) (b : ℕ → β)
    (tx : ℕ → String) (rt : ℕ → ℚ)
    (h429 : ∀ j, j < 5 → att j = .response 429 (b j) (tx j) (rt j)) :
    (perform_step_with_retry att initStepStats).1 = none
    ∧ (perform_step_with_retry att initStepStats).2.error
        = some "Max retries exceeded (429)"
    ∧ (perform_step_with_retry att initStepStats).2.retries = 5 := by
  have h0 := h429 0 (by norm_num)
  have h1 := h429 1 (by norm_num)
  have h2 := h429 2 (by norm_num)
  have h3 := h429 3 (by norm_num)
  have h4 := h429 4 (by norm_num)
  refine ⟨?_, ?_, ?_⟩ <;>
    norm_num [perform_step_with_retry, stepAux, initStepStats, h0, h1, h2, h3, h4]

/-- C3: for every protocol step, if the endpoint answers HTTP 429 exactly
`k` times and then 200 with `k < 5`, the step returns the parsed 200 body
after incrementing the outcome's retry counter exactly `k` times, sleeping
between attempts a backoff that starts at the fixed 2-second base delay and
strictly doubles on each successive 429 (`2·2^0, 2·2^1, …`); if 429 recurs
on all 5 attempts, the step fails and the outcome records the distinct
retry-exhaustion error `"Max retries exceeded (429)"` rather than a generic
transport-fault error. -/
theorem C3_retry_policy (β : Type) :
    (∀ (att : ℕ → Attempt β) (k : ℕ) (b : ℕ → β) (tx : ℕ → String) (rt : ℕ → ℚ)
        (body : β) (text : String) (rtt : ℚ),
      k < 5 →
      (∀ j, j < k → att j = .response 429 (b j) (tx j) (rt j)) →
      att k = .response 200 body text rtt →
      (perform_step_with_retry att initStepStats).1 = some body
      ∧ (perform_step_with_retry att initStepStats).2.retries = k
      ∧ (perform_step_with_retry att initStepStats).2.slept
          = (List.range k).map (fun j => 2 * 2 ^ j)
      ∧ (perform_step_with_retry att initStepStats).2.error = none)
    ∧ (∀ (att : ℕ → Attempt β) (b : ℕ → β) (tx : ℕ → String) (rt : ℕ → ℚ),
      (∀ j, j < 5 → att j = .response 429 (b j) (tx j) (rt j)) →
      (perform_step_with_retry att initStepStats).1 = none
      ∧ (perform_step_with_retry att initStepStats).2.error
          = some "Max retries exceeded (429)") := by
  constructor
  · intro att k b tx rt body text rtt hk h429 h200
    rw [stepRun200 att k b tx rt body text rtt hk h429 h200]
    exact ⟨rfl, rfl, rfl, rfl⟩
  · intro att b tx rt h429
    exact ⟨(stepRunExhausted att b tx rt h429).1, (stepRunExhausted att b tx rt h429).2.1⟩

/-- Witness for C3: a stub answering 429 twice and then 200 (body 7)
succeeds after 2 retries with sleeps 2 and 4; a stub answering 429 five
times fails with the retry-exhaustion error. -/
theorem C3_retry_policy_witness :
    ((perform_step_with_retry
        (fun i => if i < 2 then Attempt.response 429 (0 : ℕ) "rate" 1
                  else Attempt.response 200 7 "ok" 1) initStepStats).1 = some 7
     ∧ (perform_step_with_retry
        (fun i => if i < 2 then Attempt.response 429 (0 : ℕ) "rate" 1
                  else Attempt.response 200 7 "ok" 1) initStepStats).2.retries = 2
     ∧ (perform_step_with_retry
        (fun i => if i < 2 then Attempt.response 429 (0 : ℕ) "rate" 1
                  else Attempt.response 200 7 "ok" 1) initStepStats).2.slept
          = (List.range 2).map (fun j => 2 * 2 ^ j)
     ∧ (perform_step_with_retry
        (fun i => if i < 2 then Attempt.response 429 (0 : ℕ) "rate" 1
                  else Attempt.response 200 7 "ok" 1) initStepStats).2.error = none)
    ∧ ((perform_step_with_retry
          (fun _ => Attempt.response 429 (0 : ℕ) "rate" 1) initStepStats).1 = none
       ∧ (perform_step_with_retry
          (fun _ => Attempt.response 429 (0 : ℕ) "rate" 1) initStepStats).2.error
            = some "Max retries exceeded (429)") :=
  ⟨(C3_retry_policy ℕ).1 _ 2 (fun _ => 0) (fun _ => "rate") (fun _ => 1) 7 "ok" 1
      (by norm_num) (fun j hj => by rw [if_pos hj]) (by norm_num),
   (C3_retry_policy ℕ).2 _ (fun _ => 0) (fun _ => "rate") (fun _ => 1)
      (fun _ _ => rfl)⟩

/-- C7: a first attempt answered with any status outside
{200, 400, 403, 429} fails the step immediately — no retry increment, no
backoff sleep — recording the status (with up to 50 characters of body
text) in the outcome's error field; a first attempt that raises a transport
fault (timeout, connection error) fails the step immediately with the
fault's message recorded verbatim. -/
theorem C7_fail_fast (β : Type) :
    (∀ (att : ℕ → Attempt β) (status : ℕ) (body : β) (text : String) (rtt : ℚ),
      att 0 = .response status body text rtt →
      status ≠ 200 → status ≠ 400 → status ≠ 403 → status ≠ 429 →
      perform_step_with_retry att initStepStats
        = (none,
           { stepTime := rtt, retries := 0,
             error := some ("HTTP " ++ toString status ++ ": " ++ text.take 50),
             slept := [], wall := rtt }))
    ∧ (∀ (att : ℕ → Attempt β) (msg : String) (elapsed : ℚ),
      att 0 = .fault msg elapsed →
      perform_step_with_retry att initStepStats
        = (none,
           { stepTime := 0, retries := 0, error := some msg,
             slept := [], wall := elapsed })) := by
  constructor
  · intro att status body text rtt h0 h200 h400 h403 h429
    have e200 : (status == 200) = false := beq_eq_false_iff_ne.mpr h200
    have e400 : (status == 400) = false := beq_eq_false_iff_ne.mpr h400
    have e403 : (status == 403) = false := beq_eq_false_iff_ne.mpr h403
    have e429 : (status == 429) = false := beq_eq_false_iff_ne.mpr h429
    simp [perform_step_with_retry, stepAux, initStepStats, h0, e200, e400, e403, e429]
  · intro att msg elapsed h0
    simp [perform_step_with_retry, stepAux, initStepStats, h0]

/-- Witness for C7: a stub answering HTTP 500 with body text
`"Internal Server Error"` fails at once with that status recorded, and a
stub raising a connect timeout fails at once with the message recorded
verbatim. -/
theorem C7_fail_fast_witness :
    perform_step_with_retry
        (fun _ => Attempt.response 500 (0 : ℕ) "Internal Server Error" 3) initStepStats
      = (none,
         { stepTime := 3, retries := 0,
           error := some ("HTTP " ++ toString 500 ++ ": "
             ++ ("Internal Server Error").take 50),
           slept := [], wall := 3 })
    ∧ perform_step_with_retry
        (fun _ => (Attempt.fault "ConnectTimeout" (2 : ℚ) : Attempt ℕ)) initStepStats
      = (none,
         { stepTime := 0, retries := 0, error := some "ConnectTimeout",
           slept := [], wall := 2 }) :=
  ⟨(C7_fail_fast ℕ).1 _ 500 0 "Internal Server Error" 3 rfl (by norm_num) (by norm_num)
      (by norm_num) (by norm_num),
   (C7_fail_fast ℕ).2 _ "ConnectTimeout" 2 rfl⟩

/-- C10: the elapsed time recorded under a step's name accumulates, over
all attempts of that step that received a response (attempts answered with
HTTP 429 included), each attempt's request round-trip time; the backoff
sleeps between attempts are excluded from the per-step time but do count
toward the call's wall time (hence toward the session's `total_time`), and
an attempt that raises a transport fault before receiving a response
contributes nothing to the per-step time. -/
theorem C10_step_time_accounting (β : Type) :
    (∀ (att : ℕ → Attempt β) (k : ℕ) (b : ℕ → β) (tx : ℕ → String) (rt : ℕ → ℚ)
        (body : β) (text : String) (rtt : ℚ),
      k < 5 →
      (∀ j, j < k → att j = .response 429 (b j) (tx j) (rt j)) →
      att k = .response 200 body text rtt →
      (perform_step_with_retry att initStepStats).2.stepTime
          = ((List.range k).map rt).sum + rtt
      ∧ (perform_step_with_retry att initStepStats).2.wall
          = ((List.range k).map rt).sum + rtt
              + ((perform_step_with_retry att initStepStats).2.slept).sum)
    ∧ (∀ (att : ℕ → Attempt β) (k : ℕ) (b : ℕ → β) (tx : ℕ → String) (rt : ℕ → ℚ)
        (msg : String) (elapsed : ℚ),
      k < 5 →
      (∀ j, j < k → att j = .response 429 (b j) (tx j) (rt j)) →
      att k = .fault msg elapsed →
      (perform_step_with_retry att initStepStats).2.stepTime
          = ((List.range k).map rt).sum
      ∧ (perform_step_with_retry att initStepStats).2.wall
          = ((List.range k).map rt).sum + elapsed
              + ((perform_step_with_retry att initStepStats).2.slept).sum) := by
  constructor
  · intro att k b tx rt body text rtt hk h429 h200
    rw [stepRun200 att k b tx rt body text rtt hk h429 h200]
    exact ⟨rfl, rfl⟩
  · intro att k b tx rt msg elapsed hk h429 hfault
    rw [stepRunFault att k b tx rt msg elapsed hk h429 hfault]
    exact ⟨rfl, rfl⟩

/-- Witness for C10: with one 429 attempt of round-trip time 3 and then a
200 of round-trip time 7, the recorded step time is 3 + 7 and the wall time
additionally includes the slept backoff. -/
theorem C10_step_time_accounting_witness :
    (perform_step_with_retry
        (fun i => if i < 1 then Attempt.response 429 (0 : ℕ) "rate" 3
                  else Attempt.response 200 5 "ok" 7) initStepStats).2.stepTime
      = ((List.range 1).map (fun _ => (3 : ℚ))).sum + 7
    ∧ (perform_step_with_retry
        (fun i => if i < 1 then Attempt.response 429 (0 : ℕ) "rate" 3
                  else Attempt.response 200 5 "ok" 7) initStepStats).2.wall
      = ((List.range 1).map (fun _ => (3 : ℚ))).sum + 7
          + ((perform_step_with_retry
              (fun i => if i < 1 then Attempt.response 429 (0 : ℕ) "rate" 3
                        else Attempt.response 200 5 "ok" 7) initStepStats).2.slept).sum :=
  (C10_step_time_accounting ℕ).1 _ 1 (fun _ => 0) (fun _ => "rate") (fun _ => 3) 5 "ok" 7
    (by norm_num) (fun j hj => by rw [if_pos hj]) (by norm_num)

/-- C4 counterexample: the submit step can return a parsed response whose
`ok` field is absent — the empty JSON object — yet the session outcome
records `success = false` and not `true`: `if res and not res.get("ok")`
treats the empty dict as falsy, so a protocol-level rejection carried by an
empty body is not counted as a success. -/
theorem C4_counterexample_empty_response :
    dictGet [] "ok" = none
    ∧ runMalformedSession (some [("nonce", JVal.jstr "abc")]) (some [])
        = ⟨false, false, none⟩ :=
  ⟨rfl, rfl⟩

/-- C4 (amended): for every session flagged malformed, if the submit step
returns a non-empty parsed response whose `ok` field is `false` or absent
(a protocol-level rejection), the session outcome records `success = true`
with the rejection note and the enroll request is never sent; if the submit
response reports `ok = true`, `success` remains `false`; the enroll request
is never sent on the malformed path at all; and with malformed mode
enabled, exactly the sessions at launch indices 0, 5, 10, … are flagged to
send a corrupted payload. -/
theorem C4_malformed_sessions :
    (∀ (ch res : JObj), ch ≠ [] → res ≠ [] →
      (dictGet res "ok" = none ∨ dictGet res "ok" = some (JVal.jbool false)) →
      runMalformedSession (some ch) (some res)
        = ⟨true, false, some "Correctly rejected malformed payload"⟩)
    ∧ (∀ (ch res : JObj), dictGet res "ok" = some (JVal.jbool true) →
      (runMalformedSession (some ch) (some res)).success = false)
    ∧ (∀ (ch res : Option JObj), (runMalformedSession ch res).enrollSent = false)
    ∧ (∀ n i : ℕ, i < n → (((malformedFlags n).getD i false) = true ↔ i % 5 = 0)) := by
  refine ⟨?_, ?_, ?_, ?_⟩
  · intro ch res hch hres hok
    have h1 : ch.isEmpty = false := by
      cases ch with
      | nil => exact absurd rfl hch
      | cons a t => rfl
    have h2 : res.isEmpty = false := by
      cases res with
      | nil => exact absurd rfl hres
      | cons a t => rfl
    have h3 : truthyOpt (dictGet res "ok") = false := by
      rcases hok with hok | hok <;> rw [hok] <;> rfl
    simp [runMalformedSession, h1, h2, h3]
  · intro ch res hok
    have h3 : truthyOpt (dictGet res "ok") = true := by
      rw [hok]
      rfl
    cases ch with
    | nil => rfl
    | cons a t => simp [runMalformedSession, h3]
  · intro ch res
    cases ch with
    | none => rfl
    | some l =>
      cases res with
      | none =>
        simp only [runMalformedSession]
        split <;> rfl
      | some r =>
        simp only [runMalformedSession]
        split
        · rfl
        · split <;> rfl
  · intro n i hi
    simp [malformedFlags, List.getD_eq_getElem?_getD, List.getElem?_map,
      List.getElem?_range, hi]

/-- Witness for C4: a non-empty challenge body and a submit response
`{"ok": false}` yield a successful malformed session with no enroll; a
response `{"ok": true}` leaves success false; no malformed session enrolls;
and index 5 of 6 sessions is flagged. -/
theorem C4_malformed_sessions_witness :
    runMalformedSession (some [("nonce", JVal.jstr "x")])
        (some [("ok", JVal.jbool false)])
      = ⟨true, false, some "Correctly rejected malformed payload"⟩
    ∧ (runMalformedSession (some [("nonce", JVal.jstr "x")])
        (some [("ok", JVal.jbool true)])).success = false
    ∧ (runMalformedSession none none).enrollSent = false
    ∧ (((malformedFlags 6).getD 5 false) = true ↔ 5 % 5 = 0) :=
  ⟨C4_malformed_sessions.1 [("nonce", JVal.jstr "x")] [("ok", JVal.jbool false)]
      (by simp) (by simp) (Or.inr rfl),
   C4_malformed_sessions.2.1 [("nonce", JVal.jstr "x")] [("ok", JVal.jbool true)] rfl,
   C4_malformed_sessions.2.2.1 none none,
   C4_malformed_sessions.2.2.2 6 5 (by norm_num)⟩

/-! ### The semaphore invariant (claim C9) -/

/-- Each scheduler step preserves the quantity
`holdingCount + free permits`: acquiring trades a permit for a holder,
releasing trades back, and request begin/end do not touch it. -/
theorem gateStep_invariant {C : ℕ} {s t : GateState} (h : GateStep s t)
    (hinv : holdingCount s + s.permits = C) : holdingCount t + t.permits = C := by
  cases h with
  | acquire i hi hp hperm =>
    have hc := List.countP_set isHolding s.sessions i (Phase.holding false) hi
    rw [hp] at hc
    simp only [isHolding] at hc
    simp only [holdingCount] at hinv ⊢
    simp at hc
    omega
  | beginRequest i hi hp =>
    have hpos : 0 < s.sessions.countP isHolding := by
      rw [List.countP_pos_iff]
      refine ⟨s.sessions[i], List.getElem_mem hi, ?_⟩
      rw [hp]
      rfl
    have hc := List.countP_set isHolding s.sessions i (Phase.holding true) hi
    rw [hp] at hc
    simp only [isHolding] at hc
    simp only [holdingCount] at hinv ⊢
    simp at hc
    omega
  | endRequest i hi hp =>
    have hpos : 0 < s.sessions.countP isHolding := by
      rw [List.countP_pos_iff]
      refine ⟨s.sessions[i], List.getElem_mem hi, ?_⟩
      rw [hp]
      rfl
    have hc := List.countP_set isHolding s.sessions i (Phase.holding false) hi
    rw [hp] at hc
    simp only [isHolding] at hc
    simp only [holdingCount] at hinv ⊢
    simp at hc
    omega
  | release i hi hp =>
    have hpos : 0 < s.sessions.countP isHolding := by
      rw [List.countP_pos_iff]
      refine ⟨s.sessions[i], List.getElem_mem hi, ?_⟩
      rw [hp]
      rfl
    have hc := List.countP_set isHolding s.sessions i Phase.finished hi
    rw [hp] at hc
    simp only [isHolding] at hc
    simp only [holdingCount] at hinv ⊢
    simp at hc
    omega

/-- C9: with gate capacity `C`, in every state a run of `run_test` can
reach — every network request being performed inside the session's
`async with self.semaphore` block — at most `C` sessions hold a permit, so
at no instant do more than `C` sessions have an in-flight network
request. -/
theorem C9_concurrency_bound (C n : ℕ) (s : GateState) (h : ReachableGate C n s) :
    inFlightCount s ≤ C := by
  have hinv : holdingCount s + s.permits = C := by
    unfold ReachableGate at h
    induction h with
    | refl =>
      simp only [holdingCount, initGateState]
      have hz : (List.replicate n Phase.pending).countP isHolding = 0 := by
        rw [List.countP_eq_zero]
        intro a ha
        rw [List.eq_of_mem_replicate ha]
        simp [isHolding]
      rw [hz]
      exact Nat.zero_add C
    | tail hab hbc ih => exact gateStep_invariant hbc ih
  have hmono : inFlightCount s ≤ holdingCount s := by
    apply List.countP_mono_left
    intro a _ ha
    cases a with
    | pending => exact absurd ha (by simp [isInFlight])
    | holding b => rfl
    | finished => exact absurd ha (by simp [isInFlight])
  omega

/-- Witness for C9: after one session of three acquires the sole permits
pool of capacity 2 and starts its request, the in-flight count 1 is within
the bound 2. -/
theorem C9_concurrency_bound_witness :
    inFlightCount ⟨1, [Phase.holding true, Phase.pending, Phase.pending]⟩ ≤ 2 := by
  have s1 : GateStep (initGateState 2 3)
      ⟨1, [Phase.holding false, Phase.pending, Phase.pending]⟩ := by
    have h := GateStep.acquire (initGateState 2 3) 0 (by simp [initGateState])
      (by simp [initGateState]) (by simp [initGateState])
    simpa [initGateState] using h
  have s2 : GateStep ⟨1, [Phase.holding false, Phase.pending, Phase.pending]⟩
      ⟨1, [Phase.holding true, Phase.pending, Phase.pending]⟩ := by
    have h := GateStep.beginRequest
      ⟨1, [Phase.holding false, Phase.pending, Phase.pending]⟩ 0 (by simp) rfl
    simpa using h
  exact C9_concurrency_bound 2 3 _
    (Relation.ReflTransGen.head s1 (Relation.ReflTransGen.head s2 .refl))

end StressTest
